import Mathlib

/-!
Verification development for the trade_kabu single-trade orchestrator
(src/trader/enums.py, src/trader/models.py, src/trader/autotrader.py,
src/trader/brokers.py), as a shallow embedding in Lean.

Conventions of the embedding:
* Python floats are modelled as `Rat`; Python ints as `Int` (broker codes)
  or `Rat` where the source mixes them with floats (quantities, prices).
* The mutable `AutoTrader` object is modelled as a structure; each method
  becomes a function from the structure (plus the broker and explicit clock
  readings) to a new structure together with a trace of external effects
  (broker calls and repository writes).
* `datetime.now()` is passed in as `wallNow : Rat`, seconds since midnight of
  the current day (the source builds the close time with `now.replace(...)`,
  so only the time of day matters); `time.monotonic()` is passed in as
  `monoNow : Rat`.  A tick uses one reading per clock.
* The broker object is modelled as a record of response functions plus an
  `isDemo` flag standing for `isinstance(self.broker, DemoBroker)`.
* A Python exception escaping a method is modelled by `StepResult.exn`,
  carrying the message, the orchestrator as mutated so far and the effects
  performed so far.
* Python object identity (`is`) between orders is modelled by structural
  equality; the role-keyed dict `self.orders` is an insertion-ordered
  association list, and a mutation of an order held in the dict is written
  back at its role.  The aliases `entry_order` / `exit_profit_order` /
  `exit_loss_order` are only ever read at fields that no later mutation
  touches (a poll changes only `order_id`, `status`, `filled_qty`,
  `last_error`), so they are assigned where the source assigns them and not
  re-synchronised on polls.
-/

namespace TradeKabu

/-- AutoTraderState of src/trader/enums.py. -/
inductive AutoTraderState
  | IDLE
  | ENTRY_WAIT
  | ENTRY_FILLED
  | EXIT_WAIT
  | FORCE_EXITING
  | EXIT_FILLED
  | ERROR
deriving DecidableEq, Repr

/-- OrderRole of src/trader/enums.py. -/
inductive OrderRole
  | ENTRY
  | EXIT_PROFIT
  | EXIT_LOSS
  | EXIT_MARKET
deriving DecidableEq, Repr

/-- OrderStatus of src/trader/enums.py. -/
inductive OrderStatus
  | NEW
  | SENT
  | PARTIAL
  | FILLED
  | CANCELED
  | REJECTED
  | ERROR
deriving DecidableEq, Repr

/-- FrontOrderType codes of src/trader/enums.py (the `.value` of the enum). -/
def FrontOrderType.MARKET : Int := 10

def FrontOrderType.LIMIT : Int := 20

def FrontOrderType.STOP : Int := 30

def FrontOrderType.STOP_MARKET : Int := 31

def FrontOrderType.STOP_LIMIT : Int := 32

/-- ReverseLimitUnderOver.OVER.value of src/trader/enums.py. -/
def ReverseLimitUnderOver.OVER : Int := 1

/-- ReverseLimitUnderOver.UNDER.value of src/trader/enums.py. -/
def ReverseLimitUnderOver.UNDER : Int := 2

/-- ORDER_TYPE_TO_FRONT_ORDER_TYPE of src/trader/enums.py, as a partial map
from the (upper-cased) order_type string to the FrontOrderType value. -/
def ORDER_TYPE_TO_FRONT_ORDER_TYPE (s : String) : Option Int :=
  if s = "MARKET" then some FrontOrderType.MARKET
  else if s = "LIMIT" then some FrontOrderType.LIMIT
  else if s = "STOP" then some FrontOrderType.STOP
  else if s = "STOP_MARKET" then some FrontOrderType.STOP_MARKET
  else if s = "STOP_LIMIT" then some FrontOrderType.STOP_LIMIT
  else none

/-- One entry of a `close_positions` list: a dict with keys HoldID and Qty. -/
structure ClosePosition where
  holdID : String
  posQty : Rat
deriving DecidableEq, Repr

/-- Order of src/trader/models.py: the dataclass fields, in source order.
`created_at` (a timestamp never read by the logic) defaults to 0. -/
structure Order where
  role : OrderRole
  order_type : String
  qty : Rat
  symbol : Option String := none
  exchange : Option Int := none
  side : Option Int := none
  security_type : Option Int := none
  cash_margin : Option Int := none
  margin_trade_type : Option Int := none
  account_type : Option Int := none
  deliv_type : Option Int := none
  expire_day : Option Int := none
  front_order_type : Option Int := none
  symbol_code : Option String := none
  time_in_force : Option String := none
  price : Option Rat := none
  close_position_id : Option String := none
  close_position_order : Option Int := none
  close_positions : Option (List ClosePosition) := none
  fund_type : Option String := none
  stop_trigger_price : Option Rat := none
  stop_after_hit_order_type : Option Int := none
  stop_after_hit_price : Option Rat := none
  stop_under_over : Option Int := none
  order_id : Option String := none
  status : OrderStatus := OrderStatus.NEW
  filled_qty : Rat := 0
  last_error : Option String := none
  created_at : Rat := 0
deriving DecidableEq, Repr

/-- OrderPollResult of src/trader/models.py. -/
structure OrderPollResult where
  status : OrderStatus
  filled_qty : Rat := 0
deriving DecidableEq, Repr

/-- The BrokerInterface contract of src/trader/brokers.py, as a record of
response functions.  `isDemo` models `isinstance(broker, DemoBroker)`. -/
structure BrokerInterface where
  place_order : Order → String
  poll_order : Order → OrderPollResult
  cancel_order : Order → Bool
  isDemo : Bool := false

/-- One observable external effect: a broker call or a repository write.
`place`, `poll` and `cancelReq` record the order as passed to the broker;
`repoInsert` / `repoUpdate` record the order as stored. -/
inductive TraceEvent
  | place (o : Order)
  | poll (o : Order)
  | cancelReq (o : Order) (ok : Bool)
  | repoInsert (o : Order)
  | repoUpdate (o : Order)
deriving DecidableEq, Repr

/-- The orders a trace submitted to the broker, in submission order. -/
def placedOrders (evs : List TraceEvent) : List Order :=
  evs.filterMap fun ev =>
    match ev with
    | TraceEvent.place o => some o
    | _ => none

/-- The orders a trace asked the broker to cancel, in request order. -/
def cancelRequests (evs : List TraceEvent) : List Order :=
  evs.filterMap fun ev =>
    match ev with
    | TraceEvent.cancelReq o _ => some o
    | _ => none

/-- The orders a trace polled at the broker, in poll order. -/
def polledOrders (evs : List TraceEvent) : List Order :=
  evs.filterMap fun ev =>
    match ev with
    | TraceEvent.poll o => some o
    | _ => none

/-- Order.place of src/trader/models.py: send to the broker, record the
returned id, set status SENT, insert into the repository. -/
def Order.place (o : Order) (b : BrokerInterface) : Order × List TraceEvent :=
  let oid := b.place_order o
  let o1 : Order := { o with order_id := some oid, status := OrderStatus.SENT }
  (o1, [TraceEvent.place o, TraceEvent.repoInsert o1])

/-- Order.poll_status of src/trader/models.py: fetch the latest state, keep a
nonzero reported filled quantity, default filled_qty to qty when FILLED with a
falsy filled quantity, and write to the repository only on a change. -/
def Order.poll_status (o : Order) (b : BrokerInterface) :
    Order × OrderStatus × List TraceEvent :=
  let previous_status := o.status
  let previous_filled_qty := o.filled_qty
  let poll_result := b.poll_order o
  let o1 : Order := { o with status := poll_result.status }
  let o2 : Order :=
    if poll_result.filled_qty ≠ 0 then { o1 with filled_qty := poll_result.filled_qty } else o1
  let o3 : Order :=
    if o2.status = OrderStatus.FILLED ∧ o2.filled_qty = 0 then { o2 with filled_qty := o2.qty }
    else o2
  let upd :=
    if o3.status ≠ previous_status ∨ o3.filled_qty ≠ previous_filled_qty then
      [TraceEvent.repoUpdate o3]
    else []
  (o3, o3.status, TraceEvent.poll o :: upd)

/-- Order.cancel of src/trader/models.py: ask the broker; on success set
status CANCELED and write to the repository; on failure change nothing. -/
def Order.cancel (o : Order) (b : BrokerInterface) : Order × Bool × List TraceEvent :=
  let ok := b.cancel_order o
  if ok then
    let o1 : Order := { o with status := OrderStatus.CANCELED }
    (o1, true, [TraceEvent.cancelReq o true, TraceEvent.repoUpdate o1])
  else (o, false, [TraceEvent.cancelReq o false])

/-- AutoTraderConfig of src/trader/models.py, with the source's defaults. -/
structure AutoTraderConfig where
  force_exit_poll_interval_sec : Rat := 3
  force_exit_max_duration_sec : Rat := 600
  force_exit_start_before_close_min : Int := 30
  force_exit_deadline_before_close_min : Int := 10
  market_close_hour : Int := 15
  market_close_minute : Int := 0
  force_exit_use_market_close : Bool := true
  reconcile_on_success : Bool := true
deriving DecidableEq, Repr

/-- The mutable fields of AutoTrader (src/trader/autotrader.py __init__).
`orders` is the role-keyed dict as an insertion-ordered association list. -/
structure AutoTrader where
  config : AutoTraderConfig
  state : AutoTraderState
  orders : List (OrderRole × Order)
  entry_order : Option Order
  exit_profit_order : Option Order
  exit_loss_order : Option Order
  profit_price : Option Rat
  loss_price : Option Rat
  force_exit_started_at : Option Rat
  last_force_exit_poll : Option Rat
  confirmed_order_ids : List String
deriving DecidableEq, Repr

/-- AutoTrader.__init__: the freshly constructed orchestrator. -/
def AutoTrader.mkInit (config : AutoTraderConfig) : AutoTrader :=
  { config := config
    state := AutoTraderState.IDLE
    orders := []
    entry_order := none
    exit_profit_order := none
    exit_loss_order := none
    profit_price := none
    loss_price := none
    force_exit_started_at := none
    last_force_exit_poll := none
    confirmed_order_ids := [] }

/-- Lookup in the role-keyed dict (`self.orders.get(role)`). -/
def getRole (m : List (OrderRole × Order)) (r : OrderRole) : Option Order :=
  (m.find? fun p => p.1 == r).map fun p => p.2

/-- Assignment in the role-keyed dict (`self.orders[role] = order`): a dict
keeps an existing key at its position and appends a new key. -/
def setRole (m : List (OrderRole × Order)) (r : OrderRole) (o : Order) :
    List (OrderRole × Order) :=
  if m.any fun p => p.1 == r then
    m.map fun p => if p.1 == r then (r, o) else p
  else m ++ [(r, o)]

/-- Result of an orchestrator method: normal return, or a Python exception
escaping it.  Both carry the orchestrator as mutated so far and the external
effects performed so far. -/
inductive StepResult
  | ok (t : AutoTrader) (evs : List TraceEvent)
  | exn (msg : String) (t : AutoTrader) (evs : List TraceEvent)
deriving DecidableEq, Repr

/-- The orchestrator carried by a StepResult. -/
def StepResult.trader : StepResult → AutoTrader
  | StepResult.ok t _ => t
  | StepResult.exn _ t _ => t

/-- The effects carried by a StepResult. -/
def StepResult.events : StepResult → List TraceEvent
  | StepResult.ok _ e => e
  | StepResult.exn _ _ e => e

/-- Whether the StepResult is an escaped exception. -/
def StepResult.raised : StepResult → Bool
  | StepResult.ok _ _ => false
  | StepResult.exn _ _ _ => true

/-- AutoTrader.calculate_qty: floor of capital / entry_price, 0 on a
non-positive price (`int(capital // entry_price)`). -/
def calculate_qty (capital entry_price : Rat) : Int :=
  if entry_price ≤ 0 then 0 else Int.floor (capital / entry_price)

/-- One iteration of the AutoTrader.cancel_all_orders loop: cancel the
snapshot order unless it is already FILLED or CANCELED, writing a successful
cancel back at its role. -/
def cancel_all_step (b : BrokerInterface) (acc : AutoTrader × List TraceEvent)
    (p : OrderRole × Order) : AutoTrader × List TraceEvent :=
  if p.2.status ≠ OrderStatus.FILLED ∧ p.2.status ≠ OrderStatus.CANCELED then
    let c := p.2.cancel b
    ({ acc.1 with orders := setRole acc.1.orders p.1 c.1 }, acc.2 ++ c.2.2)
  else acc

/-- AutoTrader.cancel_all_orders: best-effort cancel of every order in the
dict whose status is neither FILLED nor CANCELED (iterating the dict values
snapshot; each successful cancel mutates that order in the dict). -/
def cancel_all_orders (t : AutoTrader) (b : BrokerInterface) :
    AutoTrader × List TraceEvent :=
  t.orders.foldl (cancel_all_step b) (t, [])

/-- AutoTrader._enter_error_state: set ERROR, then cancel what is left. -/
def enter_error_state (t : AutoTrader) (b : BrokerInterface) :
    AutoTrader × List TraceEvent :=
  cancel_all_orders { t with state := AutoTraderState.ERROR } b

/-- Upper-casing used by `order_type.upper()` (ASCII, as the call sites use). -/
def toUpperStr (s : String) : String := s.map Char.toUpper

/-- AutoTrader.start_trade: refuse outside IDLE; else record the prices, fix
up margin_trade_type and front_order_type, register and place the entry order
and move to ENTRY_WAIT. -/
def start_trade (t : AutoTrader) (b : BrokerInterface) (entry_order : Order)
    (profit_price loss_price : Rat) : AutoTrader × List TraceEvent :=
  if t.state ≠ AutoTraderState.IDLE then ({ t with state := AutoTraderState.ERROR }, [])
  else
    let t1 : AutoTrader :=
      { t with profit_price := some profit_price, loss_price := some loss_price }
    let e1 : Order :=
      if entry_order.cash_margin = some 2 ∧ entry_order.margin_trade_type = none then
        { entry_order with margin_trade_type := some 1 }
      else entry_order
    let e2 : Order :=
      if e1.front_order_type = none then
        match ORDER_TYPE_TO_FRONT_ORDER_TYPE (toUpperStr e1.order_type) with
        | some v => { e1 with front_order_type := some v }
        | none => e1
      else e1
    let pl := e2.place b
    ({ t1 with
        entry_order := some pl.1
        orders := setRole t1.orders e2.role pl.1
        state := AutoTraderState.ENTRY_WAIT }, pl.2)

/-- AutoTrader._resolve_exit_side: flip side 1 to 2 and 2 to 1. -/
def resolve_exit_side (t : AutoTrader) : Option Int :=
  match t.entry_order with
  | none => none
  | some e =>
    match e.side with
    | none => none
    | some s => if s = 1 then some 2 else if s = 2 then some 1 else none

/-- AutoTrader._resolve_stop_under_over: UNDER for a long entry, OVER for a
short one. -/
def resolve_stop_under_over (t : AutoTrader) : Option Int :=
  match t.entry_order with
  | none => none
  | some e =>
    if e.side = some 1 then some ReverseLimitUnderOver.UNDER
    else if e.side = some 2 then some ReverseLimitUnderOver.OVER
    else none

/-- The dict returned by AutoTrader._build_exit_order_base: the entry order's
identifying fields, with the flipped side.  All fields default to none, which
is also the value of every field when `entry_order` is absent (empty dict). -/
structure ExitOrderBase where
  symbol : Option String := none
  exchange : Option Int := none
  side : Option Int := none
  security_type : Option Int := none
  cash_margin : Option Int := none
  margin_trade_type : Option Int := none
  account_type : Option Int := none
  deliv_type : Option Int := none
  expire_day : Option Int := none
  symbol_code : Option String := none
  time_in_force : Option String := none
  close_position_id : Option String := none
  close_positions : Option (List ClosePosition) := none
  close_position_order : Option Int := none
  fund_type : Option String := none
deriving DecidableEq, Repr

/-- AutoTrader._build_exit_order_base of src/trader/autotrader.py. -/
def build_exit_order_base (t : AutoTrader) (exit_side : Option Int) : ExitOrderBase :=
  match t.entry_order with
  | none => {}
  | some e =>
    { symbol := e.symbol
      exchange := e.exchange
      side := exit_side
      security_type := e.security_type
      cash_margin := e.cash_margin
      margin_trade_type := e.margin_trade_type
      account_type := e.account_type
      deliv_type := e.deliv_type
      expire_day := e.expire_day
      symbol_code := e.symbol_code
      time_in_force := e.time_in_force
      close_position_id := e.close_position_id
      close_positions := e.close_positions
      close_position_order := e.close_position_order
      fund_type := e.fund_type }

/-- An `Order(role=…, order_type=…, qty=…, **base_kwargs)` call: the explicit
fields plus the base dict's keyword arguments, everything else defaulted. -/
def mkOrderFromBase (role : OrderRole) (order_type : String) (qty : Rat)
    (base : ExitOrderBase) : Order :=
  { role := role
    order_type := order_type
    qty := qty
    symbol := base.symbol
    exchange := base.exchange
    side := base.side
    security_type := base.security_type
    cash_margin := base.cash_margin
    margin_trade_type := base.margin_trade_type
    account_type := base.account_type
    deliv_type := base.deliv_type
    expire_day := base.expire_day
    symbol_code := base.symbol_code
    time_in_force := base.time_in_force
    close_position_id := base.close_position_id
    close_positions := base.close_positions
    close_position_order := base.close_position_order
    fund_type := base.fund_type }

/-- AutoTrader.create_exit_orders: guard on the entry order, the recorded
prices, the resolved exit side and stop direction (each failure is ERROR
unless the broker is the demo broker for the side guards), then build the
EXIT_PROFIT limit order and the EXIT_LOSS stop order sized to the entry
quantity, register both (profit first), place the loss leg then the profit
leg, and move to EXIT_WAIT. -/
def create_exit_orders (t : AutoTrader) (b : BrokerInterface) :
    AutoTrader × List TraceEvent :=
  match t.entry_order with
  | none => ({ t with state := AutoTraderState.ERROR }, [])
  | some entry =>
    match t.profit_price, t.loss_price with
    | some pp, some lp =>
      let exit_side := resolve_exit_side t
      if exit_side = none ∧ ¬ b.isDemo then ({ t with state := AutoTraderState.ERROR }, [])
      else
        let base0 := build_exit_order_base t exit_side
        let base :=
          if entry.cash_margin = some 2 then { base0 with margin_trade_type := some 2 }
          else base0
        let stop_under_over := resolve_stop_under_over t
        if stop_under_over = none ∧ ¬ b.isDemo then
          ({ t with state := AutoTraderState.ERROR }, [])
        else
          let profitO : Order :=
            { mkOrderFromBase OrderRole.EXIT_PROFIT "LIMIT" entry.qty base with
                front_order_type := some FrontOrderType.LIMIT
                price := some pp }
          let lossO : Order :=
            { mkOrderFromBase OrderRole.EXIT_LOSS "STOP" entry.qty base with
                front_order_type := some FrontOrderType.STOP
                stop_trigger_price := some lp
                stop_under_over := stop_under_over
                stop_after_hit_order_type := some FrontOrderType.MARKET }
          let plLoss := lossO.place b
          let plProfit := profitO.place b
          let m1 := setRole t.orders OrderRole.EXIT_PROFIT plProfit.1
          let m2 := setRole m1 OrderRole.EXIT_LOSS plLoss.1
          ({ t with
              exit_profit_order := some plProfit.1
              exit_loss_order := some plLoss.1
              orders := m2
              state := AutoTraderState.EXIT_WAIT }, plLoss.2 ++ plProfit.2)
    | _, _ => ({ t with state := AutoTraderState.ERROR }, [])

/-- AutoTrader.force_exit_market.  With no position yet (IDLE/ENTRY_WAIT) it
is an illegal call: ERROR with no broker interaction; in a terminal state it
does nothing.  Otherwise, when an entry order is on record, the source
constructs the EXIT_MARKET order passing `close_position_id` and
`close_positions` both explicitly and again inside `**base_kwargs` (which
carries those keys whenever `entry_order` is set): Python raises TypeError
for the duplicated keyword argument, so the call escapes with an exception
before any broker interaction or state change.  Only with no entry order on
record (empty base dict, reachable with the demo broker) does it place a
qty-0 EXIT_MARKET order, move to FORCE_EXITING and stamp the watchdog. -/
def force_exit_market (t : AutoTrader) (b : BrokerInterface) (monoNow : Rat) :
    StepResult :=
  if t.state = AutoTraderState.IDLE ∨ t.state = AutoTraderState.ENTRY_WAIT then
    StepResult.ok { t with state := AutoTraderState.ERROR } []
  else if t.state = AutoTraderState.EXIT_FILLED ∨ t.state = AutoTraderState.ERROR then
    StepResult.ok t []
  else
    let exit_side := resolve_exit_side t
    if exit_side = none ∧ ¬ b.isDemo then
      StepResult.ok { t with state := AutoTraderState.ERROR } []
    else
      match t.entry_order with
      | some _ =>
        StepResult.exn
          "TypeError: Order got multiple values for keyword argument close_position_id"
          t []
      | none =>
        let base := build_exit_order_base t exit_side
        let exitO : Order :=
          { mkOrderFromBase OrderRole.EXIT_MARKET "MARKET" 0 base with
              close_position_id := none
              close_positions := none
              front_order_type := some FrontOrderType.MARKET }
        let pl := exitO.place b
        StepResult.ok
          { t with
              orders := setRole t.orders OrderRole.EXIT_MARKET pl.1
              state := AutoTraderState.FORCE_EXITING
              force_exit_started_at := some monoNow
              last_force_exit_poll := some monoNow } pl.2

/-- One iteration of AutoTrader.cancel_other_exit_orders for one role: cancel
the order at that role unless it is the filled order itself; on a refused
cancel, escalate to force_exit_market and, if that did not reach
FORCE_EXITING, to the error state. -/
def cancel_other_leg (t : AutoTrader) (b : BrokerInterface) (monoNow : Rat)
    (filled_order : Order) (role : OrderRole) : StepResult :=
  match getRole t.orders role with
  | none => StepResult.ok t []
  | some o =>
    if o = filled_order then StepResult.ok t []
    else
      let c := o.cancel b
      let t1 : AutoTrader := { t with orders := setRole t.orders role c.1 }
      if c.2.1 then StepResult.ok t1 c.2.2
      else
        match force_exit_market t1 b monoNow with
        | StepResult.exn m t2 ev2 => StepResult.exn m t2 (c.2.2 ++ ev2)
        | StepResult.ok t2 ev2 =>
          if t2.state ≠ AutoTraderState.FORCE_EXITING then
            let er := enter_error_state t2 b
            StepResult.ok er.1 (c.2.2 ++ ev2 ++ er.2)
          else StepResult.ok t2 (c.2.2 ++ ev2)

/-- AutoTrader.cancel_other_exit_orders: the loop over EXIT_PROFIT then
EXIT_LOSS. -/
def cancel_other_exit_orders (t : AutoTrader) (b : BrokerInterface) (monoNow : Rat)
    (filled_order : Order) : StepResult :=
  match cancel_other_leg t b monoNow filled_order OrderRole.EXIT_PROFIT with
  | StepResult.exn m t1 ev1 => StepResult.exn m t1 ev1
  | StepResult.ok t1 ev1 =>
    match cancel_other_leg t1 b monoNow filled_order OrderRole.EXIT_LOSS with
    | StepResult.exn m t2 ev2 => StepResult.exn m t2 (ev1 ++ ev2)
    | StepResult.ok t2 ev2 => StepResult.ok t2 (ev1 ++ ev2)

/-- AutoTrader.on_order_event of src/trader/autotrader.py. -/
def on_order_event (t : AutoTrader) (b : BrokerInterface) (monoNow : Rat)
    (order : Order) (status : OrderStatus) : StepResult :=
  if t.state = AutoTraderState.ERROR then StepResult.ok t []
  else if status = OrderStatus.REJECTED ∨ status = OrderStatus.ERROR then
    let er := enter_error_state t b
    StepResult.ok er.1 er.2
  else if order.role = OrderRole.ENTRY ∧ status = OrderStatus.FILLED then
    let ce := create_exit_orders { t with state := AutoTraderState.ENTRY_FILLED } b
    StepResult.ok ce.1 ce.2
  else if (order.role = OrderRole.EXIT_PROFIT ∨ order.role = OrderRole.EXIT_LOSS) ∧
      status = OrderStatus.FILLED then
    let other_role :=
      if order.role = OrderRole.EXIT_PROFIT then OrderRole.EXIT_LOSS else OrderRole.EXIT_PROFIT
    let otherFilled : Bool :=
      match getRole t.orders other_role with
      | some other => other.status == OrderStatus.FILLED
      | none => false
    if otherFilled then
      let er := enter_error_state t b
      StepResult.ok er.1 er.2
    else
      match cancel_other_exit_orders t b monoNow order with
      | StepResult.exn m t1 ev1 => StepResult.exn m t1 ev1
      | StepResult.ok t1 ev1 =>
        if t1.state ≠ AutoTraderState.ERROR then
          StepResult.ok { t1 with state := AutoTraderState.EXIT_FILLED } ev1
        else StepResult.ok t1 ev1
  else if order.role = OrderRole.EXIT_MARKET ∧ status = OrderStatus.FILLED then
    StepResult.ok { t with state := AutoTraderState.EXIT_FILLED } []
  else StepResult.ok t []

/-- AutoTrader._handle_partial_fill: nothing to do when filled_qty is not
strictly between 0 and qty; during FORCE_EXITING top up with a fresh
EXIT_MARKET order for the remaining quantity; otherwise cancel the original
(ERROR when the cancel is refused) and place a same-role replacement carrying
the original's parameters with the remaining quantity.  Returns whether the
event was consumed. -/
def handle_partial_fill (t : AutoTrader) (b : BrokerInterface) (order : Order) :
    AutoTrader × Bool × List TraceEvent :=
  if order.filled_qty ≤ 0 ∨ order.filled_qty ≥ order.qty then (t, false, [])
  else
    let remaining_qty := order.qty - order.filled_qty
    if remaining_qty ≤ 0 then (t, false, [])
    else if t.state = AutoTraderState.FORCE_EXITING then
      let replacement : Order :=
        { role := OrderRole.EXIT_MARKET
          order_type := "MARKET"
          qty := remaining_qty
          symbol := order.symbol
          exchange := order.exchange
          side := order.side
          security_type := order.security_type
          cash_margin := order.cash_margin
          margin_trade_type := order.margin_trade_type
          account_type := order.account_type
          deliv_type := order.deliv_type
          expire_day := order.expire_day
          front_order_type := order.front_order_type
          symbol_code := order.symbol_code
          time_in_force := order.time_in_force
          price := order.price
          stop_trigger_price := order.stop_trigger_price
          stop_after_hit_order_type := order.stop_after_hit_order_type
          stop_after_hit_price := order.stop_after_hit_price
          stop_under_over := order.stop_under_over
          close_positions := order.close_positions
          close_position_order := order.close_position_order
          fund_type := order.fund_type }
      let pl := replacement.place b
      ({ t with orders := setRole t.orders pl.1.role pl.1 }, true, pl.2)
    else
      let c := order.cancel b
      if ¬ c.2.1 then
        let er := enter_error_state t b
        (er.1, true, c.2.2 ++ er.2)
      else
        let t1 : AutoTrader := { t with orders := setRole t.orders order.role c.1 }
        let replacement : Order :=
          { role := order.role
            order_type := order.order_type
            qty := remaining_qty
            price := order.price
            symbol := order.symbol
            exchange := order.exchange
            side := order.side
            security_type := order.security_type
            cash_margin := order.cash_margin
            margin_trade_type := order.margin_trade_type
            account_type := order.account_type
            deliv_type := order.deliv_type
            expire_day := order.expire_day
            front_order_type := order.front_order_type
            symbol_code := order.symbol_code
            time_in_force := order.time_in_force
            stop_trigger_price := order.stop_trigger_price
            stop_after_hit_order_type := order.stop_after_hit_order_type
            stop_after_hit_price := order.stop_after_hit_price
            stop_under_over := order.stop_under_over
            close_positions := order.close_positions
            close_position_order := order.close_position_order
            fund_type := order.fund_type }
        let pl := replacement.place b
        ({ t1 with orders := setRole t1.orders pl.1.role pl.1 }, true, c.2.2 ++ pl.2)

/-- The `for order in list(self.orders.values())` loop of
AutoTrader._poll_active_orders, iterating the snapshot of roles in dict order
and reading each order's current object through the dict (a mutation of an
order by an earlier iteration is visible through its dict slot).  Terminal
orders are skipped; REJECTED/ERROR aborts the loop into the error state; a
PARTIAL consumed by handle_partial_fill skips event handling; everything else
is fed to on_order_event. -/
def poll_orders_loop (b : BrokerInterface) (monoNow : Rat) :
    List OrderRole → AutoTrader → List TraceEvent → StepResult
  | [], t, evs => StepResult.ok t evs
  | r :: rest, t, evs =>
    match getRole t.orders r with
    | none => poll_orders_loop b monoNow rest t evs
    | some o =>
      if o.status = OrderStatus.FILLED ∨ o.status = OrderStatus.CANCELED ∨
          o.status = OrderStatus.REJECTED ∨ o.status = OrderStatus.ERROR then
        poll_orders_loop b monoNow rest t evs
      else
        let ps := o.poll_status b
        let t1 : AutoTrader := { t with orders := setRole t.orders r ps.1 }
        let status := ps.2.1
        if status = OrderStatus.REJECTED ∨ status = OrderStatus.ERROR then
          let er := enter_error_state t1 b
          StepResult.ok er.1 (evs ++ ps.2.2 ++ er.2)
        else if status = OrderStatus.PARTIAL ∧ (handle_partial_fill t1 b ps.1).2.1 then
          let hp := handle_partial_fill t1 b ps.1
          poll_orders_loop b monoNow rest hp.1 (evs ++ ps.2.2 ++ hp.2.2)
        else
          match on_order_event t1 b monoNow ps.1 status with
          | StepResult.exn m t2 ev2 => StepResult.exn m t2 (evs ++ ps.2.2 ++ ev2)
          | StepResult.ok t2 ev2 => poll_orders_loop b monoNow rest t2 (evs ++ ps.2.2 ++ ev2)

/-- AutoTrader._poll_active_orders: in FORCE_EXITING first the watchdog
(`force_exit_max_duration_sec` exceeded since the forced exit began moves
straight to ERROR), then the throttle (return untouched until
`force_exit_poll_interval_sec` has elapsed since the last forced-exit poll),
then stamp the poll time; in every active state run the polling loop.  The
Python truthiness of the two optional timestamps (None and 0.0 both falsy) is
modelled by `getD 0` with a ≠ 0 test. -/
def poll_active_orders (t : AutoTrader) (b : BrokerInterface) (monoNow : Rat) :
    StepResult :=
  if t.state = AutoTraderState.FORCE_EXITING then
    let started := t.force_exit_started_at.getD 0
    if started ≠ 0 ∧ monoNow - started > t.config.force_exit_max_duration_sec then
      StepResult.ok { t with state := AutoTraderState.ERROR } []
    else
      let lastPoll := t.last_force_exit_poll.getD 0
      if lastPoll ≠ 0 ∧ monoNow - lastPoll < t.config.force_exit_poll_interval_sec then
        StepResult.ok t []
      else
        let t1 : AutoTrader := { t with last_force_exit_poll := some monoNow }
        poll_orders_loop b monoNow (t1.orders.map Prod.fst) t1 []
  else poll_orders_loop b monoNow (t.orders.map Prod.fst) t []

/-- AutoTrader._maybe_force_exit_by_market_close: with the close-clock rule
enabled and the state non-terminal, compute the close time of the current day
and the start / deadline instants; before start do nothing; from start on,
when not already FORCE_EXITING, trigger the forced exit at or before the
deadline and enter the error state past it.  `wallNow` is `datetime.now()`
as seconds since midnight of the same day. -/
def maybe_force_exit_by_market_close (t : AutoTrader) (b : BrokerInterface)
    (wallNow monoNow : Rat) : StepResult :=
  if ¬ t.config.force_exit_use_market_close then StepResult.ok t []
  else if t.state = AutoTraderState.EXIT_FILLED ∨ t.state = AutoTraderState.ERROR then
    StepResult.ok t []
  else
    let close_time : Rat :=
      ((3600 * t.config.market_close_hour + 60 * t.config.market_close_minute : Int) : Rat)
    let start_time : Rat :=
      close_time - ((60 * t.config.force_exit_start_before_close_min : Int) : Rat)
    let deadline_time : Rat :=
      close_time - ((60 * t.config.force_exit_deadline_before_close_min : Int) : Rat)
    if wallNow < start_time then StepResult.ok t []
    else if t.state ≠ AutoTraderState.FORCE_EXITING then
      if wallNow ≤ deadline_time then force_exit_market t b monoNow
      else
        let er := enter_error_state t b
        StepResult.ok er.1 er.2
    else StepResult.ok t []

/-- AutoTrader.poll: the market-close preemption rule, then, in an active
state, one polling pass over the orders. -/
def poll (t : AutoTrader) (b : BrokerInterface) (wallNow monoNow : Rat) : StepResult :=
  match maybe_force_exit_by_market_close t b wallNow monoNow with
  | StepResult.exn m t1 ev1 => StepResult.exn m t1 ev1
  | StepResult.ok t1 ev1 =>
    if t1.state = AutoTraderState.ENTRY_WAIT ∨ t1.state = AutoTraderState.EXIT_WAIT ∨
        t1.state = AutoTraderState.FORCE_EXITING then
      match poll_active_orders t1 b monoNow with
      | StepResult.exn m t2 ev2 => StepResult.exn m t2 (ev1 ++ ev2)
      | StepResult.ok t2 ev2 => StepResult.ok t2 (ev1 ++ ev2)
    else StepResult.ok t1 ev1

/-- Whether `needle` occurs as a contiguous substring of `hay` (the Python
`needle in hay` test on strings), on the underlying character lists. -/
def listHasSub (needle : List Char) : List Char → Bool
  | [] => needle.isEmpty
  | c :: rest => needle.isPrefixOf (c :: rest) || listHasSub needle rest

/-- String version of the containment test. -/
def strHasSub (hay needle : String) : Bool := listHasSub needle.data hay.data

/-- The order-state payload as KabuStationBroker._map_order_status reads it.
`state_text` models `str(payload.get("State") or payload.get("OrderState")
or payload.get("Status") or "").lower()` (empty when all three keys are
absent or falsy).  `qty_value` and `cum_value` model the parsed floats of
`payload.get("Qty") or payload.get("OrderQty")` and `payload.get("CumQty")
or payload.get("FilledQty") or payload.get("ExecuteQty")`: none when the
chain yields no truthy value or when either float() conversion fails (a
failure sets both to None in the source). -/
structure OrderStatePayload where
  state_text : String
  qty_value : Option Rat := none
  cum_value : Option Rat := none
deriving DecidableEq, Repr

/-- KabuStationBroker._map_order_status of src/trader/brokers.py: keyword
matching on the state text, then the numeric state-code table, then the
quantity comparison, then SENT for any other nonempty state text and ERROR
only for an empty one. -/
def mapOrderStatus (p : OrderStatePayload) : OrderStatus :=
  if strHasSub p.state_text "done" || strHasSub p.state_text "filled" ||
      strHasSub p.state_text "約定" || strHasSub p.state_text "complete" then
    OrderStatus.FILLED
  else if strHasSub p.state_text "canceled" || strHasSub p.state_text "cancel" ||
      strHasSub p.state_text "expired" || strHasSub p.state_text "失効" then
    OrderStatus.CANCELED
  else if strHasSub p.state_text "rejected" || strHasSub p.state_text "reject" ||
      strHasSub p.state_text "却下" then
    OrderStatus.REJECTED
  else if strHasSub p.state_text "partial" || strHasSub p.state_text "一部" then
    OrderStatus.PARTIAL
  else
    let digit_mapped : Option OrderStatus :=
      if p.state_text ≠ "" ∧ p.state_text.data.all Char.isDigit then
        match p.state_text.toNat?.getD 0 with
        | 1 => some OrderStatus.SENT
        | 2 => some OrderStatus.SENT
        | 3 => some OrderStatus.PARTIAL
        | 4 => some OrderStatus.FILLED
        | 5 => some OrderStatus.CANCELED
        | 6 => some OrderStatus.REJECTED
        | 7 => some OrderStatus.CANCELED
        | 8 => some OrderStatus.CANCELED
        | _ => none
      else none
    match digit_mapped with
    | some s => s
    | none =>
      let qty_classified : Option OrderStatus :=
        match p.qty_value, p.cum_value with
        | some q, some c =>
          if q ≠ 0 then
            if c ≥ q then some OrderStatus.FILLED
            else if 0 < c then some OrderStatus.PARTIAL
            else none
          else none
        | _, _ => none
      match qty_classified with
      | some s => s
      | none => if p.state_text ≠ "" then OrderStatus.SENT else OrderStatus.ERROR

/-! Concrete fixtures used by the counterexamples and witnesses below. -/

/-- A filled long entry order for 100 shares. -/
def entryC1 : Order :=
  { role := OrderRole.ENTRY, order_type := "MARKET", qty := 100, side := some 1,
    order_id := some "E1", status := OrderStatus.FILLED, filled_qty := 100 }

/-- The profit exit leg of the bracket, observed filled. -/
def profitC1 : Order :=
  { role := OrderRole.EXIT_PROFIT, order_type := "LIMIT", qty := 100, side := some 2,
    price := some 105, order_id := some "P1", status := OrderStatus.FILLED,
    filled_qty := 100 }

/-- The loss exit leg of the bracket, still active. -/
def lossC1 : Order :=
  { role := OrderRole.EXIT_LOSS, order_type := "STOP", qty := 100, side := some 2,
    stop_trigger_price := some 95, order_id := some "L1", status := OrderStatus.SENT }

/-- A broker whose cancel is always refused. -/
def brokerCancelFail : BrokerInterface :=
  { place_order := fun _ => "X1"
    poll_order := fun _ => { status := OrderStatus.SENT }
    cancel_order := fun _ => false }

/-- A broker that confirms every cancel and reports SENT on polls. -/
def brokerCancelOk : BrokerInterface :=
  { place_order := fun _ => "X1"
    poll_order := fun _ => { status := OrderStatus.SENT }
    cancel_order := fun _ => true }

/-- An orchestrator waiting on the bracket legs after the entry filled. -/
def traderC1 : AutoTrader :=
  { config := {}
    state := AutoTraderState.EXIT_WAIT
    orders := [(OrderRole.ENTRY, entryC1), (OrderRole.EXIT_PROFIT, profitC1),
               (OrderRole.EXIT_LOSS, lossC1)]
    entry_order := some entryC1
    exit_profit_order := some profitC1
    exit_loss_order := some lossC1
    profit_price := some 105
    loss_price := some 95
    force_exit_started_at := none
    last_force_exit_poll := none
    confirmed_order_ids := [] }

/-- A PARTIAL order for 100 shares with no recorded fills. -/
def ordC4 : Order :=
  { role := OrderRole.EXIT_PROFIT, order_type := "LIMIT", qty := 100, price := some 105,
    order_id := some "P1", status := OrderStatus.PARTIAL, filled_qty := 0 }

/-- A PARTIAL order for 100 shares with 40 filled. -/
def ordC4b : Order :=
  { role := OrderRole.EXIT_PROFIT, order_type := "LIMIT", qty := 100, price := some 105,
    order_id := some "P1", status := OrderStatus.PARTIAL, filled_qty := 40 }

/-- A sent order for 100 shares, not yet filled. -/
def ordC7 : Order :=
  { role := OrderRole.ENTRY, order_type := "MARKET", qty := 100,
    order_id := some "E1", status := OrderStatus.SENT }

/-- A broker reporting FILLED with a cumulative quantity of only 50. -/
def brokerC7 : BrokerInterface :=
  { place_order := fun _ => "E1"
    poll_order := fun _ => { status := OrderStatus.FILLED, filled_qty := 50 }
    cancel_order := fun _ => true }

/-- A broker reporting FILLED with the full quantity of 100. -/
def brokerC7full : BrokerInterface :=
  { place_order := fun _ => "E1"
    poll_order := fun _ => { status := OrderStatus.FILLED, filled_qty := 100 }
    cancel_order := fun _ => true }

/-- A filled long entry order for 7 shares. -/
def entryC2 : Order :=
  { role := OrderRole.ENTRY, order_type := "MARKET", qty := 7, side := some 1,
    order_id := some "E1", status := OrderStatus.FILLED, filled_qty := 7 }

/-- An orchestrator waiting on its entry order. -/
def traderC2 : AutoTrader :=
  { config := {}
    state := AutoTraderState.ENTRY_WAIT
    orders := [(OrderRole.ENTRY, entryC2)]
    entry_order := some entryC2
    exit_profit_order := none
    exit_loss_order := none
    profit_price := some 105
    loss_price := some 95
    force_exit_started_at := none
    last_force_exit_poll := none
    confirmed_order_ids := [] }

/-- The loss leg already FILLED, for the both-legs-filled scenario. -/
def lossFilledC3 : Order :=
  { lossC1 with status := OrderStatus.FILLED, filled_qty := 100 }

/-- An orchestrator whose dict shows both bracket legs FILLED. -/
def traderC3b : AutoTrader :=
  { traderC1 with
      orders := [(OrderRole.ENTRY, entryC1), (OrderRole.EXIT_PROFIT, profitC1),
                 (OrderRole.EXIT_LOSS, lossFilledC3)] }

/-- The forced-exit market order, still active. -/
def exitMktC6 : Order :=
  { role := OrderRole.EXIT_MARKET, order_type := "MARKET", qty := 100, side := some 2,
    order_id := some "M1", status := OrderStatus.SENT }

/-- An orchestrator in FORCE_EXITING: the forced exit began at monotonic time
100, which was also the last forced-exit poll. -/
def traderC6 : AutoTrader :=
  { config := {}
    state := AutoTraderState.FORCE_EXITING
    orders := [(OrderRole.ENTRY, entryC1), (OrderRole.EXIT_MARKET, exitMktC6)]
    entry_order := some entryC1
    exit_profit_order := none
    exit_loss_order := none
    profit_price := some 105
    loss_price := some 95
    force_exit_started_at := some 100
    last_force_exit_poll := some 100
    confirmed_order_ids := [] }

/-- A fresh entry order, not yet submitted. -/
def entryNew : Order := { role := OrderRole.ENTRY, order_type := "MARKET", qty := 1 }

/-! Frame lemmas: the cancel-all loop touches only the order dict, so the
state it was entered with (set to ERROR by enter_error_state) and the two
forced-exit timestamps survive it. -/

theorem cancel_all_step_frame (b : BrokerInterface) (acc : AutoTrader × List TraceEvent)
    (p : OrderRole × Order) :
    (cancel_all_step b acc p).1.state = acc.1.state ∧
    (cancel_all_step b acc p).1.last_force_exit_poll = acc.1.last_force_exit_poll ∧
    (cancel_all_step b acc p).1.config = acc.1.config := by
  unfold cancel_all_step
  split <;> exact ⟨rfl, rfl, rfl⟩

theorem cancel_all_foldl_frame (b : BrokerInterface) (l : List (OrderRole × Order))
    (acc : AutoTrader × List TraceEvent) :
    (l.foldl (cancel_all_step b) acc).1.state = acc.1.state ∧
    (l.foldl (cancel_all_step b) acc).1.last_force_exit_poll =
      acc.1.last_force_exit_poll ∧
    (l.foldl (cancel_all_step b) acc).1.config = acc.1.config := by
  induction l generalizing acc with
  | nil => exact ⟨rfl, rfl, rfl⟩
  | cons p rest ih =>
    rw [List.foldl_cons]
    refine ⟨?_, ?_, ?_⟩
    · rw [(ih (cancel_all_step b acc p)).1, (cancel_all_step_frame b acc p).1]
    · rw [(ih (cancel_all_step b acc p)).2.1, (cancel_all_step_frame b acc p).2.1]
    · rw [(ih (cancel_all_step b acc p)).2.2, (cancel_all_step_frame b acc p).2.2]

theorem cancel_all_orders_state (t : AutoTrader) (b : BrokerInterface) :
    (cancel_all_orders t b).1.state = t.state :=
  (cancel_all_foldl_frame b t.orders (t, [])).1

theorem cancel_all_orders_last (t : AutoTrader) (b : BrokerInterface) :
    (cancel_all_orders t b).1.last_force_exit_poll = t.last_force_exit_poll :=
  (cancel_all_foldl_frame b t.orders (t, [])).2.1

theorem cancel_all_orders_config (t : AutoTrader) (b : BrokerInterface) :
    (cancel_all_orders t b).1.config = t.config :=
  (cancel_all_foldl_frame b t.orders (t, [])).2.2

theorem enter_error_state_state (t : AutoTrader) (b : BrokerInterface) :
    (enter_error_state t b).1.state = AutoTraderState.ERROR := by
  unfold enter_error_state
  rw [cancel_all_orders_state]

theorem enter_error_state_last (t : AutoTrader) (b : BrokerInterface) :
    (enter_error_state t b).1.last_force_exit_poll = t.last_force_exit_poll := by
  unfold enter_error_state
  rw [cancel_all_orders_last]

theorem enter_error_state_config (t : AutoTrader) (b : BrokerInterface) :
    (enter_error_state t b).1.config = t.config := by
  unfold enter_error_state
  rw [cancel_all_orders_config]

/-- C7 counterexample: an order for 100 shares polled while the broker
reports FILLED with a cumulative quantity of 50 ends the refresh with status
FILLED but filled_qty 50 ≠ qty 100, so the claimed invariant
`status == FILLED ⇒ filled_qty == qty` does not hold for every broker poll
result. -/
theorem c7_filled_partial_quantity_counterexample :
    (Order.poll_status ordC7 brokerC7).1.status = OrderStatus.FILLED ∧
    (Order.poll_status ordC7 brokerC7).1.qty = 100 ∧
    (Order.poll_status ordC7 brokerC7).1.filled_qty = 50 := by
  refine ⟨rfl, rfl, ?_⟩
  decide

/-- C7 (amended): after Order.poll_status returns with a FILLED broker
report, `filled_qty = qty` holds provided the broker either reported the full
requested quantity (qty positive), or omitted the filled-quantity figure
(reported 0) on an order that had no previously recorded fills — the code
defaults `filled_qty` to `qty` exactly in that latter case. -/
theorem c7_poll_status_filled_invariant (o : Order) (b : BrokerInterface)
    (hf : (b.poll_order o).status = OrderStatus.FILLED)
    (hq : ((b.poll_order o).filled_qty = o.qty ∧ 0 < o.qty) ∨
      ((b.poll_order o).filled_qty = 0 ∧ o.filled_qty = 0)) :
    (Order.poll_status o b).1.status = OrderStatus.FILLED ∧
    (Order.poll_status o b).1.filled_qty = (Order.poll_status o b).1.qty := by
  unfold Order.poll_status
  rcases hq with ⟨h1, h2⟩ | ⟨h1, h2⟩
  · simp [hf, h1, h2.ne']
  · simp [hf, h1, h2]

/-- C7 witness: the amended invariant evaluated on a 100-share order whose
broker reports FILLED with the full quantity. -/
theorem c7_poll_status_filled_invariant_witness :
    (Order.poll_status ordC7 brokerC7full).1.status = OrderStatus.FILLED ∧
    (Order.poll_status ordC7 brokerC7full).1.filled_qty =
      (Order.poll_status ordC7 brokerC7full).1.qty :=
  c7_poll_status_filled_invariant ordC7 brokerC7full rfl (Or.inl ⟨rfl, by norm_num [ordC7]⟩)

/-- C9 counterexample: a broker-native payload whose state text is the
unclassifiable "zzz" (no keyword match, not a state code, no quantity
fields) is mapped to SENT, not ERROR — the adapter guesses SENT instead of
failing closed. -/
theorem c9_unknown_state_maps_to_sent :
    mapOrderStatus { state_text := "zzz" } = OrderStatus.SENT ∧
    mapOrderStatus { state_text := "zzz" } ≠ OrderStatus.ERROR := by
  decide

/-- C9 (amended): the status mapping returns ERROR exactly when the
payload's state text is empty and its quantity fields do not classify it
(whenever a parsed qty q and a cumulative figure c are both present, q is 0
or c is neither ≥ q nor positive; in particular when either field is
absent); and every other unclassifiable payload — nonempty state text
matching no keyword and no mapped numeric state code, quantity fields not
classifying — is mapped to SENT, not ERROR: the adapter guesses SENT rather
than failing closed. -/
theorem c9_error_only_on_empty_unclassified (p : OrderStatePayload) :
    (mapOrderStatus p = OrderStatus.ERROR ↔
      p.state_text = "" ∧
      ∀ q c, p.qty_value = some q → p.cum_value = some c →
        q = 0 ∨ (¬ c ≥ q ∧ ¬ 0 < c)) ∧
    (p.state_text ≠ "" →
      (∀ k ∈ ["done", "filled", "約定", "complete", "canceled", "cancel", "expired",
        "失効", "rejected", "reject", "却下", "partial", "一部"],
        strHasSub p.state_text k = false) →
      (p.state_text.data.all Char.isDigit = true →
        p.state_text.toNat?.getD 0 = 0 ∨ 8 < p.state_text.toNat?.getD 0) →
      (∀ q c, p.qty_value = some q → p.cum_value = some c →
        q = 0 ∨ (¬ c ≥ q ∧ ¬ 0 < c)) →
      mapOrderStatus p = OrderStatus.SENT) := by
  obtain ⟨st, qv, cv⟩ := p
  dsimp only
  constructor
  · constructor
    · intro h
      simp only [mapOrderStatus] at h
      split at h
      · exact absurd h (by decide)
      split at h
      · exact absurd h (by decide)
      split at h
      · exact absurd h (by decide)
      split at h
      · exact absurd h (by decide)
      split at h
      · rename_i s heq
        subst h
        split at heq
        · split at heq <;> simp at heq
        · simp at heq
      · rename_i hdnone
        split at h
        · rename_i s heq
          subst h
          split at heq
          · rename_i q c
            split at heq
            · split at heq
              · simp at heq
              · split at heq <;> simp at heq
            · simp at heq
          · simp at heq
        · rename_i hqnone
          split at h
          · exact absurd h (by decide)
          · rename_i hsne
            refine ⟨not_not.mp hsne, ?_⟩
            intro q c hq hc
            rw [hq, hc] at hqnone
            dsimp only at hqnone
            by_cases hq0 : q = 0
            · exact Or.inl hq0
            · by_cases hge : c ≥ q
              · rw [if_pos hq0, if_pos hge] at hqnone
                exact absurd hqnone (by simp)
              · right
                refine ⟨hge, ?_⟩
                intro hlt
                rw [if_pos hq0, if_neg hge, if_pos hlt] at hqnone
                simp at hqnone
    · rintro ⟨hs, hq⟩
      subst hs
      simp only [mapOrderStatus]
      rw [if_neg (by decide), if_neg (by decide), if_neg (by decide), if_neg (by decide),
        if_neg (by decide)]
      cases qv with
      | none =>
        rfl
      | some q =>
        cases cv with
        | none => rfl
        | some c =>
          dsimp only
          by_cases hq0 : q = 0
          · rw [if_neg (not_not_intro hq0)]
            rfl
          · rcases hq q c rfl rfl with h0 | ⟨hge, hlt⟩
            · exact absurd h0 hq0
            · rw [if_pos hq0, if_neg hge, if_neg hlt]
              rfl
  · intro hne hkw hdig hqc
    have kdone := hkw "done" (by simp)
    have kfilled := hkw "filled" (by simp)
    have kyaku := hkw "約定" (by simp)
    have kcomp := hkw "complete" (by simp)
    have kcanceled := hkw "canceled" (by simp)
    have kcancel := hkw "cancel" (by simp)
    have kexp := hkw "expired" (by simp)
    have kshikko := hkw "失効" (by simp)
    have krejected := hkw "rejected" (by simp)
    have kreject := hkw "reject" (by simp)
    have kkyakka := hkw "却下" (by simp)
    have kpart := hkw "partial" (by simp)
    have kichibu := hkw "一部" (by simp)
    simp only [mapOrderStatus]
    rw [if_neg (by simp [kdone, kfilled, kyaku, kcomp]),
      if_neg (by simp [kcanceled, kcancel, kexp, kshikko]),
      if_neg (by simp [krejected, kreject, kkyakka]),
      if_neg (by simp [kpart, kichibu])]
    have hdnone :
        (if st ≠ "" ∧ st.data.all Char.isDigit = true then
          match st.toNat?.getD 0 with
          | 1 => some OrderStatus.SENT
          | 2 => some OrderStatus.SENT
          | 3 => some OrderStatus.PARTIAL
          | 4 => some OrderStatus.FILLED
          | 5 => some OrderStatus.CANCELED
          | 6 => some OrderStatus.REJECTED
          | 7 => some OrderStatus.CANCELED
          | 8 => some OrderStatus.CANCELED
          | _ => none
          else none) = none := by
      by_cases hd : st.data.all Char.isDigit = true
      · rw [if_pos ⟨hne, hd⟩]
        rcases hdig hd with h0 | hgt
        · rw [h0]
        · obtain ⟨k, hk⟩ : ∃ k, st.toNat?.getD 0 = k + 9 :=
            ⟨st.toNat?.getD 0 - 9, by omega⟩
          rw [hk]
          rfl
      · rw [if_neg (by simp [hd])]
    rw [hdnone]
    have hqnone :
        (match qv, cv with
          | some q, some c =>
            if q ≠ 0 then
              if c ≥ q then some OrderStatus.FILLED
              else if 0 < c then some OrderStatus.PARTIAL
              else none
            else none
          | _, _ => none) = none := by
      cases qv with
      | none => rfl
      | some q =>
        cases cv with
        | none => rfl
        | some c =>
          dsimp only
          by_cases hq0 : q = 0
          · rw [if_neg (not_not_intro hq0)]
          · rcases hqc q c rfl rfl with h0 | ⟨hge, hlt⟩
            · exact absurd h0 hq0
            · rw [if_pos hq0, if_neg hge, if_neg hlt]
    rw [hqnone]
    exact if_pos hne

/-- C9 witness: the characterization applied to the unclassifiable payload
with state text "pending" carrying qty 100 and cumulative 0 (mapped to
SENT), and, through the iff, to the same quantities under an empty state
text (mapped to ERROR). -/
theorem c9_error_only_on_empty_unclassified_witness :
    mapOrderStatus
        { state_text := "pending", qty_value := some 100, cum_value := some 0 } =
      OrderStatus.SENT ∧
    mapOrderStatus { state_text := "", qty_value := some 100, cum_value := some 0 } =
      OrderStatus.ERROR :=
  ⟨(c9_error_only_on_empty_unclassified
      { state_text := "pending", qty_value := some 100, cum_value := some 0 }).2
      (by decide) (by decide) (by decide)
      (fun q c hq hc => by
        injection hq with hq
        injection hc with hc
        subst hq
        subst hc
        right
        constructor
        · norm_num
        · norm_num),
    (c9_error_only_on_empty_unclassified
      { state_text := "", qty_value := some 100, cum_value := some 0 }).1.mpr
      ⟨rfl, fun q c hq hc => by
        injection hq with hq
        injection hc with hc
        subst hq
        subst hc
        right
        constructor
        · norm_num
        · norm_num⟩⟩

/-- C10: when the broker refuses a cancel, Order.cancel returns false and the
order is returned exactly as it was with only the refused cancel request in
the trace (no repository update); when the broker confirms, the order comes
back with status CANCELED. -/
theorem c10_cancel_only_on_broker_confirm (o : Order) (b : BrokerInterface) :
    (b.cancel_order o = false →
      Order.cancel o b = (o, false, [TraceEvent.cancelReq o false])) ∧
    (b.cancel_order o = true →
      Order.cancel o b =
        ({ o with status := OrderStatus.CANCELED }, true,
          [TraceEvent.cancelReq o true,
            TraceEvent.repoUpdate { o with status := OrderStatus.CANCELED }])) := by
  unfold Order.cancel
  constructor <;> intro h <;> simp [h]

/-- C10 witness: the cancel-refusal half evaluated on a concrete order and a
broker that refuses every cancel. -/
theorem c10_cancel_only_on_broker_confirm_witness :
    Order.cancel ordC7 brokerCancelFail = (ordC7, false, [TraceEvent.cancelReq ordC7 false]) :=
  (c10_cancel_only_on_broker_confirm ordC7 brokerCancelFail).1 rfl

/-- C1 (code bug): in EXIT_WAIT with the profit leg observed FILLED, the loss
leg active and the broker refusing its cancel, the escalation calls
force_exit_market, whose Order construction passes close_position_id and
close_positions twice (explicitly and inside **base_kwargs, nonempty because
an entry order is on record): the tick escapes with a TypeError, no
EXIT_MARKET order is submitted and the orchestrator is left in EXIT_WAIT —
not FORCE_EXITING as the claim states. -/
theorem c1_sibling_cancel_failure_raises :
    on_order_event traderC1 brokerCancelFail 1000 profitC1 OrderStatus.FILLED =
      StepResult.exn
        "TypeError: Order got multiple values for keyword argument close_position_id"
        traderC1 [TraceEvent.cancelReq lossC1 false] ∧
    placedOrders
        (on_order_event traderC1 brokerCancelFail 1000 profitC1 OrderStatus.FILLED).events =
      [] ∧
    (on_order_event traderC1 brokerCancelFail 1000 profitC1 OrderStatus.FILLED).trader.state =
      AutoTraderState.EXIT_WAIT := by
  refine ⟨?_, rfl, rfl⟩
  rfl

/-- C4 counterexample: a PARTIAL order with qty 100 and filled_qty 0 has
remaining = 100 > 0, yet remediation outside FORCE_EXITING is a no-op — no
cancel request is issued, contradicting the claim that any positive
remaining quantity receives exactly one cancel request. -/
theorem c4_zero_filled_partial_counterexample :
    (0 : Rat) < ordC4.qty - ordC4.filled_qty ∧
    traderC1.state ≠ AutoTraderState.FORCE_EXITING ∧
    handle_partial_fill traderC1 brokerCancelOk ordC4 = (traderC1, false, []) := by
  refine ⟨by norm_num [ordC4], by decide, rfl⟩

/-- C4 (amended): outside FORCE_EXITING, partial-fill remediation is a no-op
when remaining = qty − filled_qty ≤ 0 or when filled_qty ≤ 0; when
0 < filled_qty < qty, the original order receives exactly one cancel request
and, on cancel success, exactly one same-role replacement sized to remaining
with the same price and stop-trigger parameters is submitted; if the cancel
is refused the orchestrator transitions to ERROR. -/
theorem c4_partial_fill_remediation (t : AutoTrader) (b : BrokerInterface) (order : Order)
    (hstate : t.state ≠ AutoTraderState.FORCE_EXITING) :
    (order.qty - order.filled_qty ≤ 0 ∨ order.filled_qty ≤ 0 →
      handle_partial_fill t b order = (t, false, [])) ∧
    (0 < order.filled_qty → order.filled_qty < order.qty →
      (b.cancel_order order = false →
        (handle_partial_fill t b order).1.state = AutoTraderState.ERROR ∧
        (handle_partial_fill t b order).2.1 = true ∧
        cancelRequests (handle_partial_fill t b order).2.2 =
          order :: cancelRequests (enter_error_state t b).2) ∧
      (b.cancel_order order = true →
        cancelRequests (handle_partial_fill t b order).2.2 = [order] ∧
        (placedOrders (handle_partial_fill t b order).2.2).map
            (fun o => (o.role, o.qty, o.price, o.stop_trigger_price, o.stop_under_over,
              o.stop_after_hit_order_type, o.stop_after_hit_price)) =
          [(order.role, order.qty - order.filled_qty, order.price,
            order.stop_trigger_price, order.stop_under_over,
            order.stop_after_hit_order_type, order.stop_after_hit_price)])) := by
  constructor
  · intro h
    unfold handle_partial_fill
    rw [if_pos]
    rcases h with h | h
    · right
      linarith
    · left
      exact h
  · intro h1 h2
    have hguard : ¬ (order.filled_qty ≤ 0 ∨ order.filled_qty ≥ order.qty) := by
      push_neg
      exact ⟨h1, h2⟩
    have hrem : ¬ order.qty - order.filled_qty ≤ 0 := by
      intro h
      exact absurd (by linarith : order.qty ≤ order.filled_qty) (not_le.mpr h2)
    constructor
    · intro hb
      unfold handle_partial_fill
      rw [if_neg hguard, if_neg hrem, if_neg hstate]
      simp only [Order.cancel, hb]
      simp [enter_error_state_state, cancelRequests]
    · intro hb
      unfold handle_partial_fill
      rw [if_neg hguard, if_neg hrem, if_neg hstate]
      simp only [Order.cancel, hb]
      simp [cancelRequests, placedOrders, Order.place]

/-- C4 witness: the remediation evaluated on a 100-share PARTIAL order with
40 filled and a confirming broker — one cancel of the original, one
replacement for the remaining 60 at the same price and stop parameters. -/
theorem c4_partial_fill_remediation_witness :
    cancelRequests (handle_partial_fill traderC1 brokerCancelOk ordC4b).2.2 = [ordC4b] ∧
    (placedOrders (handle_partial_fill traderC1 brokerCancelOk ordC4b).2.2).map
        (fun o => (o.role, o.qty, o.price, o.stop_trigger_price, o.stop_under_over,
          o.stop_after_hit_order_type, o.stop_after_hit_price)) =
      [(ordC4b.role, ordC4b.qty - ordC4b.filled_qty, ordC4b.price, ordC4b.stop_trigger_price,
        ordC4b.stop_under_over, ordC4b.stop_after_hit_order_type,
        ordC4b.stop_after_hit_price)] :=
  ((c4_partial_fill_remediation traderC1 brokerCancelOk ordC4b (by decide)).2
    (by norm_num [ordC4b]) (by norm_num [ordC4b])).2 rfl

/-- C8: start_trade outside IDLE and force_exit_market before a position
exists (IDLE or ENTRY_WAIT) each move straight to ERROR with no broker
interaction; consequently a second start_trade call, made from the
ENTRY_WAIT the first call established, yields ERROR and never a second
ENTRY submission. -/
theorem c8_illegal_calls (t : AutoTrader) (b : BrokerInterface) (e : Order)
    (pp lp monoNow : Rat) :
    (t.state ≠ AutoTraderState.IDLE →
      start_trade t b e pp lp = ({ t with state := AutoTraderState.ERROR }, [])) ∧
    (t.state = AutoTraderState.IDLE ∨ t.state = AutoTraderState.ENTRY_WAIT →
      force_exit_market t b monoNow =
        StepResult.ok { t with state := AutoTraderState.ERROR } []) ∧
    (t.state = AutoTraderState.IDLE →
      (start_trade t b e pp lp).1.state = AutoTraderState.ENTRY_WAIT ∧
      start_trade (start_trade t b e pp lp).1 b e pp lp =
        ({ (start_trade t b e pp lp).1 with state := AutoTraderState.ERROR }, [])) := by
  have hrefuse : ∀ t0 : AutoTrader, t0.state ≠ AutoTraderState.IDLE →
      start_trade t0 b e pp lp = ({ t0 with state := AutoTraderState.ERROR }, []) := by
    intro t0 h
    unfold start_trade
    rw [if_pos h]
  refine ⟨hrefuse t, ?_, ?_⟩
  · intro h
    unfold force_exit_market
    rw [if_pos h]
  · intro h
    have hfirst : (start_trade t b e pp lp).1.state = AutoTraderState.ENTRY_WAIT := by
      unfold start_trade
      rw [if_neg (by simp [h])]
    refine ⟨hfirst, hrefuse _ ?_⟩
    rw [hfirst]
    decide

/-- C8 witness: from a freshly constructed orchestrator, the first
start_trade reaches ENTRY_WAIT and the second collapses to ERROR with an
empty effect trace. -/
theorem c8_illegal_calls_witness :
    (start_trade (AutoTrader.mkInit {}) brokerCancelOk entryNew 105 95).1.state =
        AutoTraderState.ENTRY_WAIT ∧
    start_trade (start_trade (AutoTrader.mkInit {}) brokerCancelOk entryNew 105 95).1
        brokerCancelOk entryNew 105 95 =
      ({ (start_trade (AutoTrader.mkInit {}) brokerCancelOk entryNew 105 95).1 with
          state := AutoTraderState.ERROR }, []) :=
  (c8_illegal_calls (AutoTrader.mkInit {}) brokerCancelOk entryNew 105 95 0).2.2 rfl

/-- C5: with the close-clock rule enabled and the state non-terminal, a tick
before start = close − start_before_minutes changes nothing; from start on,
when not already FORCE_EXITING, a tick at or before deadline =
close − deadline_before_minutes performs exactly the force_exit_market
invocation, and a tick past the deadline enters the error state. -/
theorem c5_market_close_preemption (t : AutoTrader) (b : BrokerInterface)
    (wallNow monoNow : Rat)
    (henabled : t.config.force_exit_use_market_close = true)
    (hterm1 : t.state ≠ AutoTraderState.EXIT_FILLED)
    (hterm2 : t.state ≠ AutoTraderState.ERROR) :
    (wallNow <
        ((3600 * t.config.market_close_hour + 60 * t.config.market_close_minute : Int) :
          Rat) - ((60 * t.config.force_exit_start_before_close_min : Int) : Rat) →
      maybe_force_exit_by_market_close t b wallNow monoNow = StepResult.ok t []) ∧
    (¬ wallNow <
        ((3600 * t.config.market_close_hour + 60 * t.config.market_close_minute : Int) :
          Rat) - ((60 * t.config.force_exit_start_before_close_min : Int) : Rat) →
      t.state ≠ AutoTraderState.FORCE_EXITING →
      (wallNow ≤
          ((3600 * t.config.market_close_hour + 60 * t.config.market_close_minute : Int) :
            Rat) - ((60 * t.config.force_exit_deadline_before_close_min : Int) : Rat) →
        maybe_force_exit_by_market_close t b wallNow monoNow =
          force_exit_market t b monoNow) ∧
      (¬ wallNow ≤
          ((3600 * t.config.market_close_hour + 60 * t.config.market_close_minute : Int) :
            Rat) - ((60 * t.config.force_exit_deadline_before_close_min : Int) : Rat) →
        (maybe_force_exit_by_market_close t b wallNow monoNow).trader.state =
          AutoTraderState.ERROR)) := by
  unfold maybe_force_exit_by_market_close
  rw [if_neg (by simp [henabled]), if_neg (by simp [hterm1, hterm2])]
  refine ⟨fun hlt => ?_, fun hge hnf => ⟨fun hle => ?_, fun hgt => ?_⟩⟩
  · rw [if_pos hlt]
  · rw [if_neg hge, if_pos hnf, if_pos hle]
  · rw [if_neg hge, if_pos hnf, if_neg hgt]
    simp [StepResult.trader, enter_error_state_state]

/-- C5 witness: the default configuration closes at 15:00 (start 14:30,
deadline 14:50); a tick at 14:26:40 does nothing, a tick at 14:43:20 is the
force_exit_market invocation, and a tick at 14:56:40 ends in ERROR. -/
theorem c5_market_close_preemption_witness :
    (maybe_force_exit_by_market_close traderC1 brokerCancelOk 52000 7 =
      StepResult.ok traderC1 []) ∧
    (maybe_force_exit_by_market_close traderC1 brokerCancelOk 53000 7 =
      force_exit_market traderC1 brokerCancelOk 7) ∧
    ((maybe_force_exit_by_market_close traderC1 brokerCancelOk 53800 7).trader.state =
      AutoTraderState.ERROR) :=
  ⟨(c5_market_close_preemption traderC1 brokerCancelOk 52000 7 rfl (by decide)
      (by decide)).1 (by simp only [traderC1]; norm_num),
    ((c5_market_close_preemption traderC1 brokerCancelOk 53000 7 rfl (by decide)
      (by decide)).2 (by simp only [traderC1]; norm_num) (by decide)).1
      (by simp only [traderC1]; norm_num),
    ((c5_market_close_preemption traderC1 brokerCancelOk 53800 7 rfl (by decide)
      (by decide)).2 (by simp only [traderC1]; norm_num) (by decide)).2
      (by simp only [traderC1]; norm_num)⟩

/-- C2: in ENTRY_WAIT, when the ENTRY order's polled status becomes FILLED
(with the entry order and both bracket prices on record, and the exit side
resolvable or the broker being the demo broker), the handler returns
normally in EXIT_WAIT having submitted exactly two new orders, the
EXIT_LOSS leg before the EXIT_PROFIT leg. -/
theorem c2_entry_fill_creates_exit_orders (t : AutoTrader) (b : BrokerInterface)
    (monoNow : Rat) (order e : Order) (pp lp : Rat)
    (hstate : t.state = AutoTraderState.ENTRY_WAIT)
    (hrole : order.role = OrderRole.ENTRY)
    (hentry : t.entry_order = some e)
    (hpp : t.profit_price = some pp)
    (hlp : t.loss_price = some lp)
    (hside : e.side = some 1 ∨ e.side = some 2 ∨ b.isDemo = true) :
    (on_order_event t b monoNow order OrderStatus.FILLED).raised = false ∧
    (on_order_event t b monoNow order OrderStatus.FILLED).trader.state =
      AutoTraderState.EXIT_WAIT ∧
    (placedOrders (on_order_event t b monoNow order OrderStatus.FILLED).events).map
        (fun o => o.role) = [OrderRole.EXIT_LOSS, OrderRole.EXIT_PROFIT] := by
  have hout : on_order_event t b monoNow order OrderStatus.FILLED =
      StepResult.ok
        (create_exit_orders { t with state := AutoTraderState.ENTRY_FILLED } b).1
        (create_exit_orders { t with state := AutoTraderState.ENTRY_FILLED } b).2 := by
    unfold on_order_event
    rw [if_neg (by simp [hstate]), if_neg (by simp), if_pos ⟨hrole, rfl⟩]
  rcases hside with h | h | h <;>
    simp [hout, create_exit_orders, hentry, hpp, hlp, resolve_exit_side,
      resolve_stop_under_over, h, Order.place, placedOrders, StepResult.events,
      StepResult.trader, StepResult.raised, mkOrderFromBase]

/-- C2 witness: a 7-share long entry filling in ENTRY_WAIT with the demo-ish
broker: the loss leg is placed first, the profit leg second, and the state
ends at EXIT_WAIT. -/
theorem c2_entry_fill_creates_exit_orders_witness :
    (on_order_event traderC2 brokerCancelOk 5 entryC2 OrderStatus.FILLED).raised = false ∧
    (on_order_event traderC2 brokerCancelOk 5 entryC2 OrderStatus.FILLED).trader.state =
      AutoTraderState.EXIT_WAIT ∧
    (placedOrders (on_order_event traderC2 brokerCancelOk 5 entryC2 OrderStatus.FILLED).events).map
        (fun o => o.role) = [OrderRole.EXIT_LOSS, OrderRole.EXIT_PROFIT] :=
  c2_entry_fill_creates_exit_orders traderC2 brokerCancelOk 5 entryC2 entryC2 105 95
    rfl rfl rfl rfl rfl (Or.inl rfl)

/-- C3: in EXIT_WAIT with the profit leg observed FILLED while the loss leg
in the dict is not FILLED, the loss leg receives exactly one cancel request
and a confirmed cancel ends the tick in EXIT_FILLED; if the loss leg is
already FILLED too, the tick ends in ERROR. -/
theorem c3_exit_fill_cancels_sibling (t : AutoTrader) (b : BrokerInterface)
    (monoNow : Rat) (profitOrd lossOrd : Order)
    (hstate : t.state = AutoTraderState.EXIT_WAIT)
    (hrole : profitOrd.role = OrderRole.EXIT_PROFIT)
    (hp : getRole t.orders OrderRole.EXIT_PROFIT = some profitOrd)
    (hl : getRole t.orders OrderRole.EXIT_LOSS = some lossOrd)
    (hne : lossOrd ≠ profitOrd) :
    (lossOrd.status ≠ OrderStatus.FILLED → b.cancel_order lossOrd = true →
      (on_order_event t b monoNow profitOrd OrderStatus.FILLED).trader.state =
        AutoTraderState.EXIT_FILLED ∧
      cancelRequests (on_order_event t b monoNow profitOrd OrderStatus.FILLED).events =
        [lossOrd]) ∧
    (lossOrd.status = OrderStatus.FILLED →
      (on_order_event t b monoNow profitOrd OrderStatus.FILLED).trader.state =
        AutoTraderState.ERROR) := by
  constructor
  · intro hnotf hcancel
    simp [on_order_event, hstate, hrole, hp, hl, hnotf, hne, cancel_other_exit_orders,
      cancel_other_leg, Order.cancel, hcancel, cancelRequests, StepResult.events,
      StepResult.trader]
  · intro hf
    simp [on_order_event, hstate, hrole, hl, hf, enter_error_state_state,
      StepResult.trader]

/-- C3 witness: the bracket of traderC1 with a confirming broker resolves to
EXIT_FILLED after exactly one cancel of the loss leg; with both legs FILLED
(traderC3b) it resolves to ERROR. -/
theorem c3_exit_fill_cancels_sibling_witness :
    ((on_order_event traderC1 brokerCancelOk 5 profitC1 OrderStatus.FILLED).trader.state =
        AutoTraderState.EXIT_FILLED ∧
      cancelRequests (on_order_event traderC1 brokerCancelOk 5 profitC1 OrderStatus.FILLED).events =
        [lossC1]) ∧
    (on_order_event traderC3b brokerCancelOk 5 profitC1 OrderStatus.FILLED).trader.state =
      AutoTraderState.ERROR :=
  ⟨(c3_exit_fill_cancels_sibling traderC1 brokerCancelOk 5 profitC1 lossC1
      rfl rfl rfl rfl (by decide)).1 (by decide) rfl,
    (c3_exit_fill_cancels_sibling traderC3b brokerCancelOk 5 profitC1 lossFilledC3
      rfl rfl rfl rfl (by decide)).2 rfl⟩

/-! Frame lemmas for the forced-exit poll timestamp and the configuration:
once a tick has stamped `last_force_exit_poll := some monoNow`, nothing later
in the same tick can change it to a different value (force_exit_market
re-stamps the same monoNow; everything else leaves it alone), and nothing
ever changes the immutable configuration. -/

theorem force_exit_market_frame (t : AutoTrader) (b : BrokerInterface) (m : Rat)
    (h : t.last_force_exit_poll = some m) :
    (force_exit_market t b m).trader.last_force_exit_poll = some m ∧
    (force_exit_market t b m).trader.config = t.config := by
  simp only [force_exit_market]
  by_cases h1 : t.state = AutoTraderState.IDLE ∨ t.state = AutoTraderState.ENTRY_WAIT
  · rw [if_pos h1]
    exact ⟨h, rfl⟩
  rw [if_neg h1]
  by_cases h2 : t.state = AutoTraderState.EXIT_FILLED ∨ t.state = AutoTraderState.ERROR
  · rw [if_pos h2]
    exact ⟨h, rfl⟩
  rw [if_neg h2]
  by_cases h3 : resolve_exit_side t = none ∧ ¬ b.isDemo = true
  · rw [if_pos h3]
    exact ⟨h, rfl⟩
  rw [if_neg h3]
  cases he : t.entry_order with
  | some e => exact ⟨h, rfl⟩
  | none => exact ⟨rfl, rfl⟩

theorem create_exit_orders_frame (t : AutoTrader) (b : BrokerInterface) :
    (create_exit_orders t b).1.last_force_exit_poll = t.last_force_exit_poll ∧
    (create_exit_orders t b).1.config = t.config := by
  simp only [create_exit_orders]
  split
  · exact ⟨rfl, rfl⟩
  · split
    · split
      · exact ⟨rfl, rfl⟩
      · split
        · exact ⟨rfl, rfl⟩
        · exact ⟨rfl, rfl⟩
    · exact ⟨rfl, rfl⟩

theorem handle_partial_fill_frame (t : AutoTrader) (b : BrokerInterface) (o : Order) :
    (handle_partial_fill t b o).1.last_force_exit_poll = t.last_force_exit_poll ∧
    (handle_partial_fill t b o).1.config = t.config := by
  simp only [handle_partial_fill]
  split
  · exact ⟨rfl, rfl⟩
  · split
    · exact ⟨rfl, rfl⟩
    · split
      · exact ⟨rfl, rfl⟩
      · split
        · exact ⟨enter_error_state_last t b, enter_error_state_config t b⟩
        · exact ⟨rfl, rfl⟩

theorem cancel_other_leg_frame (t : AutoTrader) (b : BrokerInterface) (m : Rat)
    (fo : Order) (r : OrderRole) (h : t.last_force_exit_poll = some m) :
    (cancel_other_leg t b m fo r).trader.last_force_exit_poll = some m ∧
    (cancel_other_leg t b m fo r).trader.config = t.config := by
  unfold cancel_other_leg
  cases hget : getRole t.orders r with
  | none => exact ⟨h, rfl⟩
  | some o =>
    dsimp only
    by_cases heq : o = fo
    · rw [if_pos heq]
      exact ⟨h, rfl⟩
    rw [if_neg heq]
    by_cases hok : (o.cancel b).2.1 = true
    · rw [if_pos hok]
      exact ⟨h, rfl⟩
    rw [if_neg hok]
    have ht1 : ({ t with orders := setRole t.orders r (o.cancel b).1 } :
        AutoTrader).last_force_exit_poll = some m := h
    have hfe := force_exit_market_frame
      { t with orders := setRole t.orders r (o.cancel b).1 } b m ht1
    cases hfem : force_exit_market
        { t with orders := setRole t.orders r (o.cancel b).1 } b m with
    | exn msg t2 ev2 =>
      try rw [hfem] at hfe
      try rw [hfem]
      exact hfe
    | ok t2 ev2 =>
      try rw [hfem] at hfe
      try rw [hfem]
      dsimp only
      dsimp only [StepResult.trader] at hfe
      by_cases hst : t2.state ≠ AutoTraderState.FORCE_EXITING
      · rw [if_pos hst]
        dsimp only [StepResult.trader]
        refine ⟨?_, ?_⟩
        · rw [enter_error_state_last t2 b]
          exact hfe.1
        · rw [enter_error_state_config t2 b]
          exact hfe.2
      · rw [if_neg hst]
        exact hfe

theorem cancel_other_exit_orders_frame (t : AutoTrader) (b : BrokerInterface) (m : Rat)
    (fo : Order) (h : t.last_force_exit_poll = some m) :
    (cancel_other_exit_orders t b m fo).trader.last_force_exit_poll = some m ∧
    (cancel_other_exit_orders t b m fo).trader.config = t.config := by
  unfold cancel_other_exit_orders
  have h1 := cancel_other_leg_frame t b m fo OrderRole.EXIT_PROFIT h
  cases hleg1 : cancel_other_leg t b m fo OrderRole.EXIT_PROFIT with
  | exn msg t1 ev1 =>
    try rw [hleg1] at h1
    try rw [hleg1]
    exact h1
  | ok t1 ev1 =>
    try rw [hleg1] at h1
    try rw [hleg1]
    dsimp only
    dsimp only [StepResult.trader] at h1
    have h2 := cancel_other_leg_frame t1 b m fo OrderRole.EXIT_LOSS h1.1
    cases hleg2 : cancel_other_leg t1 b m fo OrderRole.EXIT_LOSS with
    | exn msg t2 ev2 =>
      try rw [hleg2] at h2
      try rw [hleg2]
      dsimp only [StepResult.trader] at h2 ⊢
      exact ⟨h2.1, h2.2.trans h1.2⟩
    | ok t2 ev2 =>
      try rw [hleg2] at h2
      try rw [hleg2]
      dsimp only [StepResult.trader] at h2 ⊢
      exact ⟨h2.1, h2.2.trans h1.2⟩

theorem on_order_event_frame (t : AutoTrader) (b : BrokerInterface) (m : Rat)
    (o : Order) (st : OrderStatus) (h : t.last_force_exit_poll = some m) :
    (on_order_event t b m o st).trader.last_force_exit_poll = some m ∧
    (on_order_event t b m o st).trader.config = t.config := by
  unfold on_order_event
  by_cases h1 : t.state = AutoTraderState.ERROR
  · rw [if_pos h1]
    exact ⟨h, rfl⟩
  rw [if_neg h1]
  by_cases h2 : st = OrderStatus.REJECTED ∨ st = OrderStatus.ERROR
  · rw [if_pos h2]
    dsimp only [StepResult.trader]
    refine ⟨?_, ?_⟩
    · rw [enter_error_state_last]
      exact h
    · rw [enter_error_state_config]
  rw [if_neg h2]
  by_cases h3 : o.role = OrderRole.ENTRY ∧ st = OrderStatus.FILLED
  · rw [if_pos h3]
    dsimp only [StepResult.trader]
    refine ⟨?_, ?_⟩
    · rw [(create_exit_orders_frame _ b).1]
      exact h
    · rw [(create_exit_orders_frame _ b).2]
  rw [if_neg h3]
  by_cases h4 : (o.role = OrderRole.EXIT_PROFIT ∨ o.role = OrderRole.EXIT_LOSS) ∧
      st = OrderStatus.FILLED
  · rw [if_pos h4]
    dsimp only
    by_cases hr : o.role = OrderRole.EXIT_PROFIT
    · rw [if_pos hr]
      split
      · dsimp only [StepResult.trader]
        refine ⟨?_, ?_⟩
        · rw [enter_error_state_last]
          exact h
        · rw [enter_error_state_config]
      · have hco := cancel_other_exit_orders_frame t b m o h
        cases hc : cancel_other_exit_orders t b m o with
        | exn msg t1 ev1 =>
          try rw [hc] at hco
          try rw [hc]
          dsimp only
          exact hco
        | ok t1 ev1 =>
          try rw [hc] at hco
          try rw [hc]
          dsimp only
          dsimp only [StepResult.trader] at hco
          by_cases hst : t1.state ≠ AutoTraderState.ERROR
          · rw [if_pos hst]
            exact hco
          · rw [if_neg hst]
            exact hco
    · rw [if_neg hr]
      split
      · dsimp only [StepResult.trader]
        refine ⟨?_, ?_⟩
        · rw [enter_error_state_last]
          exact h
        · rw [enter_error_state_config]
      · have hco := cancel_other_exit_orders_frame t b m o h
        cases hc : cancel_other_exit_orders t b m o with
        | exn msg t1 ev1 =>
          try rw [hc] at hco
          try rw [hc]
          dsimp only
          exact hco
        | ok t1 ev1 =>
          try rw [hc] at hco
          try rw [hc]
          dsimp only
          dsimp only [StepResult.trader] at hco
          by_cases hst : t1.state ≠ AutoTraderState.ERROR
          · rw [if_pos hst]
            exact hco
          · rw [if_neg hst]
            exact hco
  rw [if_neg h4]
  by_cases h5 : o.role = OrderRole.EXIT_MARKET ∧ st = OrderStatus.FILLED
  · rw [if_pos h5]
    exact ⟨h, rfl⟩
  · rw [if_neg h5]
    exact ⟨h, rfl⟩

theorem poll_orders_loop_frame (b : BrokerInterface) (m : Rat) (roles : List OrderRole)
    (t : AutoTrader) (evs : List TraceEvent) (h : t.last_force_exit_poll = some m) :
    (poll_orders_loop b m roles t evs).trader.last_force_exit_poll = some m ∧
    (poll_orders_loop b m roles t evs).trader.config = t.config := by
  induction roles generalizing t evs with
  | nil => exact ⟨h, rfl⟩
  | cons r rest ih =>
    rw [poll_orders_loop]
    cases hget : getRole t.orders r with
    | none => exact ih t evs h
    | some o =>
      dsimp only
      by_cases hterm : o.status = OrderStatus.FILLED ∨ o.status = OrderStatus.CANCELED ∨
          o.status = OrderStatus.REJECTED ∨ o.status = OrderStatus.ERROR
      · rw [if_pos hterm]
        exact ih t evs h
      rw [if_neg hterm]
      have h1 : ({ t with orders := setRole t.orders r (o.poll_status b).1 } :
          AutoTrader).last_force_exit_poll = some m := h
      by_cases hrej : (o.poll_status b).2.1 = OrderStatus.REJECTED ∨
          (o.poll_status b).2.1 = OrderStatus.ERROR
      · rw [if_pos hrej]
        dsimp only [StepResult.trader]
        refine ⟨?_, ?_⟩
        · rw [enter_error_state_last]
          exact h1
        · rw [enter_error_state_config]
      rw [if_neg hrej]
      by_cases hpart : (o.poll_status b).2.1 = OrderStatus.PARTIAL ∧
          (handle_partial_fill { t with orders := setRole t.orders r (o.poll_status b).1 }
            b (o.poll_status b).1).2.1 = true
      · rw [if_pos hpart]
        have hhp := handle_partial_fill_frame
          { t with orders := setRole t.orders r (o.poll_status b).1 } b (o.poll_status b).1
        have h3 := ih
          (handle_partial_fill { t with orders := setRole t.orders r (o.poll_status b).1 }
            b (o.poll_status b).1).1
          (evs ++ (o.poll_status b).2.2 ++
            (handle_partial_fill { t with orders := setRole t.orders r (o.poll_status b).1 }
              b (o.poll_status b).1).2.2)
          (by rw [hhp.1]; exact h1)
        exact ⟨h3.1, h3.2.trans hhp.2⟩
      rw [if_neg hpart]
      have hoe := on_order_event_frame
        { t with orders := setRole t.orders r (o.poll_status b).1 } b m
        (o.poll_status b).1 (o.poll_status b).2.1 h1
      cases hev : on_order_event
          { t with orders := setRole t.orders r (o.poll_status b).1 } b m
          (o.poll_status b).1 (o.poll_status b).2.1 with
      | exn msg t2 ev2 =>
        try rw [hev] at hoe
        try rw [hev]
        exact hoe
      | ok t2 ev2 =>
        try rw [hev] at hoe
        try rw [hev]
        dsimp only [StepResult.trader] at hoe
        have h3 := ih t2 (evs ++ (o.poll_status b).2.2 ++ ev2) hoe.1
        exact ⟨h3.1, h3.2.trans hoe.2⟩

/-- C6: in FORCE_EXITING, a tick past the watchdog (more than
force_exit_max_duration_sec since the forced exit began) moves straight to
ERROR with an empty effect trace — no order is polled; a tick within the
watchdog that reaches the polling phase stamps the tick time as the last
forced-exit poll, and a second tick less than force_exit_poll_interval_sec
after it performs zero broker polls. -/
theorem c6_force_exit_throttle_and_watchdog (t : AutoTrader) (b : BrokerInterface)
    (n1 n2 s p : Rat)
    (hstate : t.state = AutoTraderState.FORCE_EXITING)
    (hs : t.force_exit_started_at = some s)
    (hspos : 0 < s) :
    (n1 - s > t.config.force_exit_max_duration_sec →
      poll_active_orders t b n1 =
        StepResult.ok { t with state := AutoTraderState.ERROR } []) ∧
    (n1 - s ≤ t.config.force_exit_max_duration_sec →
      t.last_force_exit_poll = some p → 0 < p →
      n1 - p ≥ t.config.force_exit_poll_interval_sec → 0 < n1 →
      (poll_active_orders t b n1).trader.last_force_exit_poll = some n1 ∧
      ((poll_active_orders t b n1).trader.state = AutoTraderState.FORCE_EXITING →
        n2 - n1 < t.config.force_exit_poll_interval_sec →
        polledOrders
            (poll_active_orders (poll_active_orders t b n1).trader b n2).events = [])) := by
  constructor
  · intro hover
    unfold poll_active_orders
    rw [if_pos hstate, if_pos]
    rw [hs]
    exact ⟨hspos.ne', hover⟩
  · intro hin hlast hppos hgap hn1
    have hfirst : poll_active_orders t b n1 =
        poll_orders_loop b n1
          (({ t with last_force_exit_poll := some n1 } : AutoTrader).orders.map Prod.fst)
          { t with last_force_exit_poll := some n1 } [] := by
      unfold poll_active_orders
      rw [if_pos hstate, if_neg, if_neg]
      · rw [hlast]
        simp only [Option.getD_some]
        intro hcon
        exact absurd hcon.2 (not_lt.mpr hgap)
      · rw [hs]
        simp only [Option.getD_some]
        intro hcon
        exact absurd hcon.2 (not_lt.mpr hin)
    have hframe : (poll_active_orders t b n1).trader.last_force_exit_poll = some n1 ∧
        (poll_active_orders t b n1).trader.config = t.config := by
      rw [hfirst]
      exact poll_orders_loop_frame b n1 _ _ _ rfl
    refine ⟨hframe.1, fun hstate2 hclose => ?_⟩
    set T := (poll_active_orders t b n1).trader with hT
    unfold poll_active_orders
    rw [if_pos hstate2]
    by_cases hwd : (T.force_exit_started_at.getD 0 ≠ 0 ∧
        n2 - T.force_exit_started_at.getD 0 > T.config.force_exit_max_duration_sec)
    · rw [if_pos hwd]
      rfl
    · rw [if_neg hwd, if_pos]
      · rfl
      · rw [hframe.1]
        simp only [Option.getD_some]
        refine ⟨hn1.ne', ?_⟩
        rw [hframe.2]
        exact hclose

/-- C6 witness: the forced exit began at monotonic time 100 with default
timing (interval 3 s, watchdog 600 s); the tick at 104 is within the
watchdog and past the throttle, so it polls and stamps 104 as the last
forced-exit poll, and a tick at 106 — 2 s later — performs zero broker
polls while still FORCE_EXITING. -/
theorem c6_force_exit_throttle_and_watchdog_witness :
    (poll_active_orders traderC6 brokerCancelOk 104).trader.last_force_exit_poll =
        some 104 ∧
    ((poll_active_orders traderC6 brokerCancelOk 104).trader.state =
        AutoTraderState.FORCE_EXITING →
      (106 : Rat) - 104 < traderC6.config.force_exit_poll_interval_sec →
      polledOrders
          (poll_active_orders (poll_active_orders traderC6 brokerCancelOk 104).trader
            brokerCancelOk 106).events = []) :=
  (c6_force_exit_throttle_and_watchdog traderC6 brokerCancelOk 104 106 100 100
    rfl rfl (by norm_num)).2 (by simp only [traderC6]; norm_num) rfl (by norm_num)
    (by simp only [traderC6]; norm_num) (by norm_num)

end TradeKabu
